import Mathlib

/-
Verification of the AzulaCr lowering pipeline.

The definitions below are a shallow embedding of the compiler source:
`src/parser/ast.rs` (the AST data model and `Type::from_string`) and
`src/main.rs` (the module driver and function lowerer).  Rust panics are
modelled as `Except` errors; the LLVM builder API is modelled as an
explicit instruction stream.  The statement/expression lowerer
(`gen_stmt`, in the `codegen` module whose source is not part of the
repository snapshot) is modelled from the specification and marked as
such in its doc comment.
-/

namespace Azula

/-- The source-level type enumeration from `src/parser/ast.rs`
(`pub enum Type`).  The Rust widths are `i32` values, embedded as `Int`;
note that the data type itself places no restriction on the width. -/
inductive Ty where
  | Integer (w : Int)
  | Float (w : Int)
  | String
  | Boolean
deriving DecidableEq

/-- Abbreviation for the core string type, usable inside the `Ty`
namespace where `String` denotes the `Ty.String` constructor. -/
abbrev Str := String

/-- Rust function `Type::from_string` from `src/parser/ast.rs`. -/
def Ty.from_string (typ : Str) : Option Ty :=
  match typ with
  | "int" | "int32" => some (Ty.Integer 32)
  | "int64" => some (Ty.Integer 64)
  | "float" | "float32" => some (Ty.Float 32)
  | "float64" => some (Ty.Float 64)
  | "string" => some Ty.String
  | "bool" => some Ty.Boolean
  | _ => none

/-- Width well-formedness of a `Ty` value: the widths the lowering
pipeline supports.  `Ty` itself does not enforce this predicate. -/
def Ty.widthOk : Ty → Bool
  | .Integer w => w = 32 || w = 64
  | .Float w => w = 32 || w = 64
  | .String => true
  | .Boolean => true

/-- Rust enumeration `pub enum Opcode` from `src/parser/ast.rs`. -/
inductive Opcode where
  | Mul | Div | Add | Sub | Rem
  | Eq | NotEq | LessThan | GreaterThan | LessEqual | GreaterEqual
  | Or | And
deriving DecidableEq

/-- Rust enumeration `pub enum Expr` from `src/parser/ast.rs`; the
`Number` constructor carries the Rust `f64` payload as a `Float`. -/
inductive Expr where
  | Number (n : Float)
  | Identifier (s : String)
  | Boolean (b : Bool)
  | String (s : String)
  | Op (l : Expr) (op : Opcode) (r : Expr)
  | FunctionCall (f : String) (args : List Expr)

/-- Rust enumeration `pub enum Statement` from `src/parser/ast.rs`; a
`Block` is a list of statements. -/
inductive Statement where
  | Let (ann : Option String) (name : String) (init : Expr)
  | Function (name : String) (params : Option (List (Ty × String)))
      (ret : Option Ty) (body : List Statement)
  | Return (e : Option Expr)
  | Expression (e : Expr)
  | If (cond : Expr) (body : List Statement)

/-- Recognizer for top-level `Function` statements (used by the module
driver top-level match in `main`). -/
def Statement.isFunction : Statement → Bool
  | .Function _ _ _ _ => true
  | _ => false

/-- Recognizer for `Return` statements (used by the implicit-return
check at the end of function lowering in `main`). -/
def Statement.isReturn : Statement → Bool
  | .Return _ => true
  | _ => false

/-- The LLVM basic types produced by the `BasicTypeEnum` matches in
`src/main.rs`: `i32_type`/`i64_type`/`f32_type`/`f64_type`/`bool_type`
and the `str_type` of the compiler struct (an `i8` pointer). -/
inductive BasicTy where
  | i32 | i64 | f32 | f64 | i1 | ptr
deriving DecidableEq

/-- The LLVM `AnyTypeEnum` values produced for return types in
`src/main.rs`: the basic types plus `void_type`. -/
inductive AnyTy where
  | i32 | i64 | f32 | f64 | i1 | ptr | void
deriving DecidableEq

/-- The only linkage the source ever names (`Linkage::Private`); the
declared linkage of a function is an `Option` of this, `none` standing
for LLVM default linkage exactly as in the inkwell `add_function`. -/
inductive Linkage where
  | Private
deriving DecidableEq

/-- Panics raised while lowering a single function.  Each constructor
corresponds to one fatal failure path: the two `unimplemented ... size`
panics of `src/main.rs`, the `body.last().unwrap()` panic on an empty
body, and the fatal errors the spec assigns to statement/expression lowering
(unrecognized type spelling, identifier-table miss, call to an
undeclared function, a statement form §4.3 does not define). -/
inductive FnError where
  | unimplementedIntSize
  | unimplementedFloatSize
  | unwrapNonePanic
  | unresolvedType
  | undefinedReference
  | undeclaredFunction
  | unsupportedStatement
deriving DecidableEq

/-- Module-level fatal errors: the `non-function at top level` panic of
the driver loop in `src/main.rs`, or a function-lowering panic lifted
to module level. -/
inductive CompileError where
  | nonFunctionAtTopLevel
  | fnErr (e : FnError)
deriving DecidableEq

/-- The instruction kinds the lowerer emits, recorded as a flat stream;
`blockStart` marks the opening of a basic block at the current
insertion point. -/
inductive Instr where
  | blockStart (bname : String)
  | alloca
  | store (slot : Nat)
  | load (slot : Nat)
  | opInstr (op : Opcode)
  | call (f : String) (arity : Nat)
  | condBr
  | br
  | retVal
  | retVoid
deriving DecidableEq

/-- An LLVM function type: parameter basic types plus return type, as
assembled by the `fn_type` calls in `src/main.rs`. -/
structure FnType where
  params : List BasicTy
  ret : AnyTy
deriving DecidableEq

/-- One generated IR function: source name, declared linkage, function
type and emitted instruction stream. -/
structure FuncIR where
  name : String
  linkage : Option Linkage
  fnType : FnType
  code : List Instr
deriving DecidableEq

/-- The `Compiler` struct of `src/main.rs`, restricted to the state the
lowering pipeline reads and writes: the `ptrs` variable-storage table
(name → stack slot, newest binding first, mirroring `HashMap::insert`
overwrite through front insertion), a counter producing distinct stack
slots (modelling distinct LLVM `alloca` pointer values), the module
function table, and the functions built so far. -/
structure Compiler where
  ptrs : List (String × Nat)
  nextSlot : Nat
  funcs : List String
  mod : List FuncIR
deriving DecidableEq

/-- Per-function lowering state: the storage table and slot counter
(continuing the `Compiler` ones), the instruction stream of the
function under construction, whether the current basic block already
ends in a terminator, and a counter for naming fresh blocks. -/
structure StmtState where
  ptrs : List (String × Nat)
  nextSlot : Nat
  code : List Instr
  terminated : Bool
  nextBlock : Nat
deriving DecidableEq

/-- The `BasicTypeEnum` translation match of `src/main.rs` (it appears
verbatim twice there: once building `llvm_params`, once choosing the
`build_alloca` type for a parameter): integer and float widths other
than 32/64 panic with `unimplemented int size` / `unimplemented float
size`. -/
def llvmBasicType : Ty → Except FnError BasicTy
  | .Integer w =>
      if w = 32 then .ok BasicTy.i32
      else if w = 64 then .ok BasicTy.i64
      else .error FnError.unimplementedIntSize
  | .Float w =>
      if w = 32 then .ok BasicTy.f32
      else if w = 64 then .ok BasicTy.f64
      else .error FnError.unimplementedFloatSize
  | .Boolean => .ok BasicTy.i1
  | .String => .ok BasicTy.ptr

/-- The `AnyTypeEnum` translation match of `src/main.rs` used for the
declared return type, with the same width panics. -/
def llvmAnyType : Ty → Except FnError AnyTy
  | .Integer w =>
      if w = 32 then .ok AnyTy.i32
      else if w = 64 then .ok AnyTy.i64
      else .error FnError.unimplementedIntSize
  | .Float w =>
      if w = 32 then .ok AnyTy.f32
      else if w = 64 then .ok AnyTy.f64
      else .error FnError.unimplementedFloatSize
  | .Boolean => .ok AnyTy.i1
  | .String => .ok AnyTy.ptr

/-- Predicate modelling `AnyTypeEnum::is_int_type`: in LLVM the 1-bit
boolean type is an integer type. -/
def AnyTy.isIntType : AnyTy → Bool
  | .i32 | .i64 | .i1 => true
  | _ => false

/-- Predicate modelling `AnyTypeEnum::is_float_type`. -/
def AnyTy.isFloatType : AnyTy → Bool
  | .f32 | .f64 => true
  | _ => false

/-- Predicate modelling `AnyTypeEnum::is_pointer_type`. -/
def AnyTy.isPointerType : AnyTy → Bool
  | .ptr => true
  | _ => false

/-- Predicate modelling `AnyTypeEnum::is_void_type`. -/
def AnyTy.isVoidType : AnyTy → Bool
  | .void => true
  | _ => false

/-- The `function_type` assembly of `src/main.rs`: a default
`void ()` type successively overwritten by the `is_int_type` /
`is_float_type` / `is_pointer_type` / `is_void_type` branches. -/
def mkFunctionType (llvm_ret : AnyTy) (llvm_params : List BasicTy) : FnType :=
  let ft : FnType := { params := [], ret := AnyTy.void }
  let ft := if llvm_ret.isIntType then { params := llvm_params, ret := llvm_ret } else ft
  let ft := if llvm_ret.isFloatType then { params := llvm_params, ret := llvm_ret } else ft
  let ft := if llvm_ret.isPointerType then { params := llvm_params, ret := llvm_ret } else ft
  let ft := if llvm_ret.isVoidType then { params := llvm_params, ret := llvm_ret } else ft
  ft

/-- The linkage choice of `src/main.rs`: `Some(Linkage::Private)`
unless the function is named `main`, which keeps the default
(`None`). -/
def linkageFor (fname : String) : Option Linkage :=
  if fname = "main" then none else some Linkage.Private

/-- The `llvm_params` computation of `src/main.rs`: translate every
parameter type when a parameter list is present, the empty list
otherwise. -/
def lowerParamTypes (params : Option (List (Ty × String))) :
    Except FnError (List BasicTy) :=
  match params with
  | some x => x.mapM (fun p => llvmBasicType p.1)
  | none => .ok []

/-- The parameter-materialization loop of `src/main.rs`: for each
parameter in order, translate its type, `build_alloca` a slot,
`build_store` the incoming argument into it, and insert
`name → slot` into the `ptrs` table. -/
def materializeParams (params : Option (List (Ty × String))) (s : StmtState) :
    Except FnError StmtState :=
  match params with
  | some p =>
      p.foldlM
        (fun st q => do
          let _ ← llvmBasicType q.1
          Except.ok { st with
            code := st.code ++ [Instr.alloca, Instr.store st.nextSlot],
            ptrs := (q.2, st.nextSlot) :: st.ptrs,
            nextSlot := st.nextSlot + 1 })
        s
  | none => .ok s

/-- The prologue of function lowering in `src/main.rs`, in source
order: translate parameter types, translate the optional return type
(absence meaning void), assemble the function type, register the
function name in the module, open the `entry` block and position the
builder there, and materialize the parameters.  Returns the function
type, the extended module function table and the initial statement
state. -/
def functionPrologue (c : Compiler) (fname : String)
    (params : Option (List (Ty × String))) (ret : Option Ty) :
    Except FnError (FnType × List String × StmtState) := do
  let llvm_params ← lowerParamTypes params
  let llvm_ret ← match ret with
    | some r => llvmAnyType r
    | none => Except.ok AnyTy.void
  let fnty := mkFunctionType llvm_ret llvm_params
  let funcs' := c.funcs ++ [fname]
  let s0 : StmtState :=
    { ptrs := c.ptrs, nextSlot := c.nextSlot,
      code := [Instr.blockStart ("entry")], terminated := false, nextBlock := 0 }
  let s1 ← materializeParams params s0
  .ok (fnty, funcs', s1)

mutual

/-- Modelled from the spec: the Expression Lowerer (§4.2) lives in the
`codegen` module of the repository, whose source is not part of the
snapshot.  Literals lower to constant values (no instruction);
identifier lookup indexes the storage table by name, a miss being the
fatal undefined-reference error; a binary operation lowers the left
operand, then the right, then emits the operator instruction; a call
requires the callee to be registered in the module function table
(a miss is fatal) and emits a call instruction after lowering the
arguments left to right. -/
def lowerExpr (ptrs : List (String × Nat)) (funcs : List String) :
    Expr → Except FnError (List Instr)
  | .Number _ => .ok []
  | .Boolean _ => .ok []
  | .String _ => .ok []
  | .Identifier s =>
      match List.lookup s ptrs with
      | some slot => .ok [Instr.load slot]
      | none => .error FnError.undefinedReference
  | .Op l op r => do
      let li ← lowerExpr ptrs funcs l
      let ri ← lowerExpr ptrs funcs r
      .ok (li ++ ri ++ [Instr.opInstr op])
  | .FunctionCall f args =>
      if funcs.contains f then do
        let ais ← lowerExprs ptrs funcs args
        .ok (ais ++ [Instr.call f args.length])
      else .error FnError.undeclaredFunction

/-- Modelled from the spec: lowering of an argument list, left to
right (§4.2). -/
def lowerExprs (ptrs : List (String × Nat)) (funcs : List String) :
    List Expr → Except FnError (List Instr)
  | [] => .ok []
  | e :: es => do
      let i ← lowerExpr ptrs funcs e
      let is ← lowerExprs ptrs funcs es
      .ok (i ++ is)

end

mutual

/-- Modelled from the spec: the Statement Lowerer (§4.3), named after
the `Compiler::gen_stmt` method that `src/main.rs` calls; its body
lives in the `codegen` module, whose source is not part of the
snapshot.  Once the current block is terminated, every further
statement is dead: nothing is emitted and no error is raised (§4.3,
`Return`).  `Let` resolves the declared annotation when present
(an unrecognized spelling is fatal), lowers the initializer, allocates
a fresh slot, stores into it and registers the binding, newest first
(overwrite).  `Return` lowers its optional operand and emits a
value/void return, terminating the block.  `Expression` lowers for
side effect.  `If` lowers the condition, emits a conditional branch,
opens a `then` block, lowers the body there, falls through (when the
body did not itself terminate) to a fresh continue block.  A nested
`Function` statement is outside §4.3 and is modelled as fatal. -/
def gen_stmt (funcs : List String) (s : StmtState) (t : Statement) :
    Except FnError StmtState :=
  if s.terminated then .ok s else
  match t with
  | .Let ann vname init => do
      let is ← lowerExpr s.ptrs funcs init
      let _ ← (match ann with
        | some a =>
            match Ty.from_string a with
            | some ty => Except.ok (some ty)
            | none => Except.error FnError.unresolvedType
        | none => Except.ok none)
      Except.ok { s with
        code := s.code ++ is ++ [Instr.alloca, Instr.store s.nextSlot],
        ptrs := (vname, s.nextSlot) :: s.ptrs,
        nextSlot := s.nextSlot + 1 }
  | .Return (some e) => do
      let is ← lowerExpr s.ptrs funcs e
      Except.ok { s with code := s.code ++ is ++ [Instr.retVal], terminated := true }
  | .Return none =>
      Except.ok { s with code := s.code ++ [Instr.retVoid], terminated := true }
  | .Expression e => do
      let is ← lowerExpr s.ptrs funcs e
      Except.ok { s with code := s.code ++ is }
  | .If cond body => do
      let ci ← lowerExpr s.ptrs funcs cond
      let thenName := "then" ++ toString s.nextBlock
      let contName := "ifcont" ++ toString s.nextBlock
      let s1 : StmtState := { s with
        code := s.code ++ ci ++ [Instr.condBr, Instr.blockStart thenName],
        nextBlock := s.nextBlock + 1 }
      let s2 ← gen_stmts funcs s1 body
      Except.ok { s2 with
        code := s2.code ++ (if s2.terminated then [] else [Instr.br])
                  ++ [Instr.blockStart contName],
        terminated := false }
  | .Function _ _ _ _ => .error FnError.unsupportedStatement

/-- Modelled from the spec: sequential lowering of a statement list
(§4.3, §4.4 step 5). -/
def gen_stmts (funcs : List String) (s : StmtState) :
    List Statement → Except FnError StmtState
  | [] => .ok s
  | t :: ts => do
      let s1 ← gen_stmt funcs s t
      gen_stmts funcs s1 ts

end

/-- Lowering of one `Statement::Function` arm of the driver loop in
`src/main.rs`: run the prologue, lower every body statement in
sequence, then inspect `body.last()` — `unwrap` panics when the body
is empty, a trailing `Return` suppresses the implicit return, anything
else appends one `build_return(None)`.  The resulting function is
appended to the module; the `ptrs` table and slot counter flow back
into the compiler state (the source never clears `ptrs`). -/
def lowerFunction (c : Compiler) (fname : String)
    (params : Option (List (Ty × String))) (ret : Option Ty)
    (body : List Statement) : Except FnError Compiler := do
  let (fnty, funcs', s0) ← functionPrologue c fname params ret
  let s1 ← gen_stmts funcs' s0 body
  match body.getLast? with
  | none => .error FnError.unwrapNonePanic
  | some last =>
      let finalCode :=
        match last with
        | .Return _ => s1.code
        | _ => s1.code ++ [Instr.retVoid]
      Except.ok
        { ptrs := s1.ptrs, nextSlot := s1.nextSlot, funcs := funcs',
          mod := c.mod ++
            [{ name := fname, linkage := linkageFor fname,
               fnType := fnty, code := finalCode }] }

/-- One iteration of the driver loop of `src/main.rs`: a top-level
`Function` is lowered, anything else panics with
`non-function at top level`. -/
def topStep (c : Compiler) (s : Statement) : Except CompileError Compiler :=
  match s with
  | .Function fname params ret body =>
      (lowerFunction c fname params ret body).mapError CompileError.fnErr
  | _ => .error CompileError.nonFunctionAtTopLevel

/-- Modelled from the spec: the built-in functions that
`Compiler::add_print_funcs` (in the missing `codegen` module)
registers before any user function, §4.5/§6 naming string and number
printing primitives. -/
def builtinFuncs : List String := ["print_str", "print_num"]

/-- The compiler state exactly as `main` constructs it before the
driver loop: empty `ptrs` table, no slots, only the built-ins
registered, empty module. -/
def freshCompiler : Compiler :=
  { ptrs := [], nextSlot := 0, funcs := builtinFuncs, mod := [] }

/-- The driver loop of `src/main.rs` run from a given compiler
state. -/
def lowerProgramFrom (c : Compiler) (prog : List Statement) :
    Except CompileError Compiler :=
  prog.foldlM topStep c

/-- The whole lowering pass of `src/main.rs`: the driver loop run on a
freshly constructed compiler. -/
def lowerProgram (prog : List Statement) : Except CompileError Compiler :=
  lowerProgramFrom freshCompiler prog

/-- Number of basic blocks of a generated function (its `blockStart`
markers). -/
def FuncIR.blockCount (f : FuncIR) : Nat :=
  f.code.countP (fun i => match i with | .blockStart _ => true | _ => false)

/-- Structural shape of a lowered module: per function, its block
count and its instruction stream. -/
def moduleShape (c : Compiler) : List (Nat × List Instr) :=
  c.mod.map (fun f => (f.blockCount, f.code))

end Azula

namespace Azula

theorem except_bind_ok {ε α β : Type} (x : Except ε α) (f : α → Except ε β) (b : β) :
    (x >>= f) = .ok b ↔ ∃ a, x = .ok a ∧ f a = .ok b := by
  cases x <;> simp [Bind.bind, Except.bind]

theorem except_mapError_ok {ε ε' α : Type} (x : Except ε α) (g : ε → ε') (b : α) :
    x.mapError g = .ok b ↔ x = .ok b := by
  cases x <;> simp [Except.mapError]

theorem gen_stmt_of_terminated (funcs : List String) (s : StmtState) (t : Statement)
    (h : s.terminated = true) : gen_stmt funcs s t = .ok s := by
  unfold gen_stmt
  rw [h]
  rfl

theorem gen_stmts_of_terminated (funcs : List String) (s : StmtState)
    (h : s.terminated = true) : ∀ l, gen_stmts funcs s l = .ok s := by
  intro l
  induction l with
  | nil => rfl
  | cons t ts ih =>
      unfold gen_stmts
      rw [gen_stmt_of_terminated funcs s t h]
      simpa [Bind.bind, Except.bind] using ih

theorem gen_stmt_return_terminated (funcs : List String) (s : StmtState)
    (e : Option Expr) (s1 : StmtState)
    (h : gen_stmt funcs s (Statement.Return e) = .ok s1) : s1.terminated = true := by
  unfold gen_stmt at h
  by_cases hs : s.terminated
  · rw [hs] at h
    simp only [if_true] at h
    cases h
    exact hs
  · simp only [hs] at h
    cases e with
    | none =>
        simp only [if_false] at h
        cases h
        rfl
    | some e =>
        simp only [if_false] at h
        cases he : lowerExpr s.ptrs funcs e with
        | error err => rw [he] at h; cases h
        | ok is =>
            rw [he] at h
            simp [Bind.bind, Except.bind] at h
            cases h
            rfl

theorem lowerFunction_mod_shape (c : Compiler) (fname : String)
    (params : Option (List (Ty × String))) (ret : Option Ty)
    (body : List Statement) (c' : Compiler)
    (h : lowerFunction c fname params ret body = .ok c') :
    ∃ fnty fcode, c'.mod = c.mod ++
      [{ name := fname, linkage := linkageFor fname, fnType := fnty, code := fcode }] := by
  unfold lowerFunction at h
  rw [except_bind_ok] at h
  obtain ⟨⟨fnty, funcs', s0⟩, hpro, h⟩ := h
  simp only at h
  rw [except_bind_ok] at h
  obtain ⟨s1, hbody, h⟩ := h
  cases hlast : body.getLast? with
  | none => rw [hlast] at h; cases h
  | some last =>
      rw [hlast] at h
      simp only at h
      cases h
      exact ⟨fnty, _, rfl⟩

theorem lowerProgramFrom_linkage (prog : List Statement) :
    ∀ c c', lowerProgramFrom c prog = .ok c' →
      (∀ f ∈ c.mod, f.linkage = linkageFor f.name) →
      ∀ f ∈ c'.mod, f.linkage = linkageFor f.name := by
  induction prog with
  | nil =>
      intro c c' h hbase
      unfold lowerProgramFrom List.foldlM at h
      cases h
      exact hbase
  | cons a l ih =>
      intro c c' h hbase
      unfold lowerProgramFrom List.foldlM at h
      rw [except_bind_ok] at h
      obtain ⟨c1, hstep, h⟩ := h
      refine ih c1 c' h ?_
      unfold topStep at hstep
      cases a with
      | Function fname params ret body =>
          simp only at hstep
          rw [except_mapError_ok] at hstep
          obtain ⟨fnty, fcode, hmod⟩ :=
            lowerFunction_mod_shape c fname params ret body c1 hstep
          intro f hf
          rw [hmod] at hf
          rcases List.mem_append.mp hf with hin | hin
          · exact hbase f hin
          · rcases List.mem_singleton.mp hin with rfl
            rfl
      | Let ann vname init => cases hstep
      | Return e => cases hstep
      | Expression e => cases hstep
      | If cond body => cases hstep

theorem topStep_nonfunction (c : Compiler) (s : Statement)
    (h : s.isFunction = false) :
    topStep c s = .error CompileError.nonFunctionAtTopLevel := by
  cases s <;> simp_all [topStep, Statement.isFunction]

theorem mapError_fnErr_ne (x : Except FnError Compiler) :
    x.mapError CompileError.fnErr ≠ .error CompileError.nonFunctionAtTopLevel := by
  cases x <;> simp [Except.mapError]

theorem lowerProgramFrom_ok_all_functions (prog : List Statement) :
    ∀ c c', lowerProgramFrom c prog = .ok c' → ∀ t ∈ prog, t.isFunction = true := by
  induction prog with
  | nil => intro c c' _ t ht; cases ht
  | cons a l ih =>
      intro c c' h t ht
      unfold lowerProgramFrom List.foldlM at h
      rw [except_bind_ok] at h
      obtain ⟨c1, hstep, h⟩ := h
      rcases List.mem_cons.mp ht with rfl | ht
      · cases t with
        | Function f p r b => rfl
        | Let ann v i => simp [topStep] at hstep
        | Return e => simp [topStep] at hstep
        | Expression e => simp [topStep] at hstep
        | If cond body => simp [topStep] at hstep
      · exact ih c1 c' h t ht

theorem lowerProgramFrom_append_error (pre : List Statement) :
    ∀ c c', lowerProgramFrom c pre = .ok c' → ∀ s rest, s.isFunction = false →
      lowerProgramFrom c (pre ++ s :: rest) = .error CompileError.nonFunctionAtTopLevel := by
  induction pre with
  | nil =>
      intro c c' _ s rest hs
      rw [List.nil_append]
      unfold lowerProgramFrom List.foldlM
      rw [topStep_nonfunction c s hs]
      rfl
  | cons a l ih =>
      intro c c' h s rest hs
      unfold lowerProgramFrom List.foldlM at h
      rw [except_bind_ok] at h
      obtain ⟨c1, hstep, h⟩ := h
      rw [List.cons_append]
      unfold lowerProgramFrom List.foldlM
      rw [hstep]
      simp only [Bind.bind, Except.bind]
      exact ih c1 c' h s rest hs

theorem lowerProgramFrom_all_functions_ne (prog : List Statement) :
    ∀ c, (∀ t ∈ prog, t.isFunction = true) →
      lowerProgramFrom c prog ≠ .error CompileError.nonFunctionAtTopLevel := by
  induction prog with
  | nil => intro c _ h; cases h
  | cons a l ih =>
      intro c hall h
      unfold lowerProgramFrom List.foldlM at h
      cases a with
      | Let ann v i =>
          simpa [Statement.isFunction] using hall _ (List.mem_cons_self _ _)
      | Return e =>
          simpa [Statement.isFunction] using hall _ (List.mem_cons_self _ _)
      | Expression e =>
          simpa [Statement.isFunction] using hall _ (List.mem_cons_self _ _)
      | If cond body =>
          simpa [Statement.isFunction] using hall _ (List.mem_cons_self _ _)
      | Function f p r b =>
          simp only [topStep] at h
          cases hlf : lowerFunction c f p r b with
          | error e =>
              rw [hlf] at h
              simp [Except.mapError, Bind.bind, Except.bind] at h
          | ok c1 =>
              rw [hlf] at h
              simp only [Except.mapError, Bind.bind, Except.bind] at h
              exact ih c1 (fun t ht => hall t (List.mem_cons_of_mem _ ht)) h

theorem mkFunctionType_params_nil (r : AnyTy) :
    (mkFunctionType r []).params = [] := by
  unfold mkFunctionType
  cases r <;> rfl

/-- C1 counterexample: a function whose body is empty does not receive
an implicit void return — lowering panics on `body.last().unwrap()`
instead, so no function is generated at all. -/
theorem C1_empty_body_counterexample :
    lowerProgram [Statement.Function ("main") none none []] =
      .error (CompileError.fnErr FnError.unwrapNonePanic) := rfl

/-- C1 (amended): for a function whose body is nonempty and lowers
successfully, exactly the last statement of the original body is
inspected: a trailing `Return` suppresses any extra instruction, and
for any other trailing statement exactly one void return instruction
is appended at the end of the emitted stream. -/
theorem C1_implicit_return (c : Compiler) (fname : String)
    (params : Option (List (Ty × String))) (ret : Option Ty)
    (body : List Statement) (fnty : FnType) (funcs' : List String)
    (s0 s1 : StmtState) (last : Statement)
    (hpro : functionPrologue c fname params ret = .ok (fnty, funcs', s0))
    (hbody : gen_stmts funcs' s0 body = .ok s1)
    (hlast : body.getLast? = some last) :
    lowerFunction c fname params ret body = .ok
      { ptrs := s1.ptrs, nextSlot := s1.nextSlot, funcs := funcs',
        mod := c.mod ++
          [{ name := fname, linkage := linkageFor fname, fnType := fnty,
             code := if last.isReturn then s1.code
                     else s1.code ++ [Instr.retVoid] }] } := by
  unfold lowerFunction
  rw [hpro]
  simp only [Bind.bind, Except.bind]
  rw [hbody]
  simp only
  rw [hlast]
  cases last <;> simp [Statement.isReturn]

/-- C1 witness: a body ending in `Return` gets no extra instruction; a
body ending in a non-`Return` statement gets exactly one appended void
return. -/
theorem C1_implicit_return_witness :
    lowerFunction freshCompiler ("f") none none [Statement.Return none] = .ok
      { ptrs := [], nextSlot := 0, funcs := builtinFuncs ++ ["f"],
        mod := [{ name := "f", linkage := some Linkage.Private,
                  fnType := { params := [], ret := AnyTy.void },
                  code := [Instr.blockStart ("entry"), Instr.retVoid] }] } ∧
    lowerFunction freshCompiler ("g") none none
        [Statement.Expression (Expr.Boolean true)] = .ok
      { ptrs := [], nextSlot := 0, funcs := builtinFuncs ++ ["g"],
        mod := [{ name := "g", linkage := some Linkage.Private,
                  fnType := { params := [], ret := AnyTy.void },
                  code := [Instr.blockStart ("entry"), Instr.retVoid] }] } := by
  constructor
  · have h := C1_implicit_return freshCompiler ("f") none none [Statement.Return none]
      { params := [], ret := AnyTy.void } (builtinFuncs ++ ["f"])
      { ptrs := [], nextSlot := 0, code := [Instr.blockStart ("entry")],
        terminated := false, nextBlock := 0 }
      { ptrs := [], nextSlot := 0,
        code := [Instr.blockStart ("entry"), Instr.retVoid],
        terminated := true, nextBlock := 0 }
      (Statement.Return none) rfl rfl rfl
    exact h
  · have h := C1_implicit_return freshCompiler ("g") none none
      [Statement.Expression (Expr.Boolean true)]
      { params := [], ret := AnyTy.void } (builtinFuncs ++ ["g"])
      { ptrs := [], nextSlot := 0, code := [Instr.blockStart ("entry")],
        terminated := false, nextBlock := 0 }
      { ptrs := [], nextSlot := 0, code := [Instr.blockStart ("entry")],
        terminated := false, nextBlock := 0 }
      (Statement.Expression (Expr.Boolean true)) rfl rfl rfl
    exact h

/-- C2 evidence: the `ptrs` table is never cleared between functions.
After lowering `fn f(x: int32)`, the binding of `x` to slot 0 is still
in the table of the compiler; a following function `g` whose body
mentions `x` then resolves it to the stack slot of `f` (a `load` of
slot 0) instead of failing with an undefined reference. -/
theorem C2_ptrs_leak_evidence :
    (lowerProgram
        [Statement.Function ("f") (some [(Ty.Integer 32, "x")]) none
          [Statement.Return none],
         Statement.Function ("g") none none
          [Statement.Expression (Expr.Identifier ("x"))]]).map
      (fun c => (c.ptrs, c.mod.map FuncIR.code)) =
    .ok ([("x", 0)],
         [[Instr.blockStart ("entry"), Instr.alloca, Instr.store 0, Instr.retVoid],
          [Instr.blockStart ("entry"), Instr.load 0, Instr.retVoid]]) := rfl

/-- C3: `Type::from_string` returns `Integer 32` exactly for `int` and
`int32`, `Integer 64` exactly for `int64`, `Float 32` exactly for
`float` and `float32`, `Float 64` exactly for `float64`, `String`
exactly for `string`, `Boolean` exactly for `bool`, and `none` for
every other input string. -/
theorem C3_type_resolution (s : String) :
    (Ty.from_string s = some (Ty.Integer 32) ↔ (s = "int" ∨ s = "int32")) ∧
    (Ty.from_string s = some (Ty.Integer 64) ↔ s = "int64") ∧
    (Ty.from_string s = some (Ty.Float 32) ↔ (s = "float" ∨ s = "float32")) ∧
    (Ty.from_string s = some (Ty.Float 64) ↔ s = "float64") ∧
    (Ty.from_string s = some Ty.String ↔ s = "string") ∧
    (Ty.from_string s = some Ty.Boolean ↔ s = "bool") ∧
    (Ty.from_string s = none ↔
      (s ≠ "int" ∧ s ≠ "int32" ∧ s ≠ "int64" ∧ s ≠ "float" ∧ s ≠ "float32" ∧
       s ≠ "float64" ∧ s ≠ "string" ∧ s ≠ "bool")) := by
  unfold Ty.from_string
  split <;> simp_all

/-- C3 witness: concrete recognized and unrecognized spellings. -/
theorem C3_type_resolution_witness :
    Ty.from_string ("int") = some (Ty.Integer 32) ∧
    Ty.from_string ("float64") = some (Ty.Float 64) ∧
    Ty.from_string ("uint8") = none :=
  ⟨(C3_type_resolution ("int")).1.mpr (Or.inl rfl),
   (C3_type_resolution ("float64")).2.2.2.1.mpr rfl,
   (C3_type_resolution ("uint8")).2.2.2.2.2.2.mpr (by decide)⟩

/-- C4: every function the driver lowers is declared with default
(externally visible) linkage exactly when its source name is `main`,
and with private linkage for every other name. -/
theorem C4_linkage (prog : List Statement) (c' : Compiler)
    (h : lowerProgram prog = .ok c') :
    ∀ f ∈ c'.mod,
      (f.name = "main" → f.linkage = none) ∧
      (f.name ≠ "main" → f.linkage = some Linkage.Private) := by
  intro f hf
  have hl := lowerProgramFrom_linkage prog freshCompiler c' h
    (by intro f hf; simp [freshCompiler] at hf) f hf
  constructor <;> intro hn
  · rw [hl, linkageFor, if_pos hn]
  · rw [hl, linkageFor, if_neg hn]

/-- C4 witness: a two-function module gives `main` default linkage and
the helper private linkage. -/
theorem C4_linkage_witness :
    ({ name := "main", linkage := none,
       fnType := { params := [], ret := AnyTy.void },
       code := [Instr.blockStart ("entry"), Instr.retVoid] } : FuncIR).linkage = none ∧
    ({ name := "helper", linkage := some Linkage.Private,
       fnType := { params := [], ret := AnyTy.void },
       code := [Instr.blockStart ("entry"), Instr.retVoid] } : FuncIR).linkage =
      some Linkage.Private := by
  have h := C4_linkage
    [Statement.Function ("main") none none [Statement.Return none],
     Statement.Function ("helper") none none [Statement.Return none]] _ rfl
  exact ⟨(h _ (by decide)).1 rfl, (h _ (by decide)).2 (by decide)⟩

/-- C5 counterexample: `Ty.Integer 7` is a perfectly constructible
value of the type enumeration — nothing at construction rejects a
width outside 32/64. -/
theorem C5_construction_counterexample : Ty.widthOk (Ty.Integer 7) = false := rfl

/-- C5 (amended): a `Ty` may carry any integer width; a width outside
32/64 is only rejected later, during lowering, where it aborts
compilation fatally. -/
theorem C5_width_rejected_during_lowering (w : Int) (h32 : w ≠ 32) (h64 : w ≠ 64) :
    lowerProgram
        [Statement.Function ("f") (some [(Ty.Integer w, "x")]) none
          [Statement.Return none]] =
      .error (CompileError.fnErr FnError.unimplementedIntSize) ∧
    lowerProgram
        [Statement.Function ("g") none (some (Ty.Float w))
          [Statement.Return none]] =
      .error (CompileError.fnErr FnError.unimplementedFloatSize) := by
  have hb : llvmBasicType (Ty.Integer w) = .error FnError.unimplementedIntSize := by
    simp [llvmBasicType, h32, h64]
  have ha : llvmAnyType (Ty.Float w) = .error FnError.unimplementedFloatSize := by
    simp [llvmAnyType, h32, h64]
  constructor <;>
    simp [lowerProgram, lowerProgramFrom, List.foldlM, topStep, lowerFunction,
      functionPrologue, lowerParamTypes, materializeParams, List.mapM,
      List.mapM.loop, hb, ha, Except.mapError, Bind.bind, Except.bind]

/-- C5 witness: width 7 evaluated concretely. -/
theorem C5_width_rejected_witness :
    lowerProgram
        [Statement.Function ("f") (some [(Ty.Integer 7, "x")]) none
          [Statement.Return none]] =
      .error (CompileError.fnErr FnError.unimplementedIntSize) ∧
    lowerProgram
        [Statement.Function ("g") none (some (Ty.Float 7))
          [Statement.Return none]] =
      .error (CompileError.fnErr FnError.unimplementedFloatSize) :=
  C5_width_rejected_during_lowering 7 (by decide) (by decide)

/-- C6 counterexample: a module whose first function panics before the
driver reaches the trailing non-function statement fails with the
width panic, not with `non-function at top level`. -/
theorem C6_counterexample :
    lowerProgram
        [Statement.Function ("f") (some [(Ty.Integer 7, "x")]) none
          [Statement.Return none],
         Statement.Let none ("y") (Expr.Boolean true)] =
      .error (CompileError.fnErr FnError.unimplementedIntSize) ∧
    CompileError.fnErr FnError.unimplementedIntSize ≠
      CompileError.nonFunctionAtTopLevel :=
  ⟨rfl, by simp⟩

/-- C6 (amended): a successful driver run saw only `Function`
statements at top level (so any module containing a non-`Function`
top-level statement fails); when every function before the first
non-`Function` statement lowers without a panic, the failure is
exactly `non-function at top level`; and a module whose top-level
statements are all `Function` statements never produces that error
(though it may fail for other reasons). -/
theorem C6_top_level (prog pre rest : List Statement) (s : Statement) (c : Compiler) :
    (∀ c', lowerProgramFrom c prog = .ok c' → ∀ t ∈ prog, t.isFunction = true) ∧
    (∀ c', lowerProgramFrom c pre = .ok c' → s.isFunction = false →
      lowerProgramFrom c (pre ++ s :: rest) = .error CompileError.nonFunctionAtTopLevel) ∧
    ((∀ t ∈ prog, t.isFunction = true) →
      lowerProgramFrom c prog ≠ .error CompileError.nonFunctionAtTopLevel) :=
  ⟨fun c' h => lowerProgramFrom_ok_all_functions prog c c' h,
   fun c' h hs => lowerProgramFrom_append_error pre c c' h s rest hs,
   fun hall => lowerProgramFrom_all_functions_ne prog c hall⟩

/-- C6 witness: a lone top-level `Let` triggers the error; an
all-function module does not. -/
theorem C6_top_level_witness :
    lowerProgramFrom freshCompiler [Statement.Let none ("y") (Expr.Boolean true)] =
      .error CompileError.nonFunctionAtTopLevel ∧
    lowerProgramFrom freshCompiler
        [Statement.Function ("f") none none [Statement.Return none]] ≠
      .error CompileError.nonFunctionAtTopLevel := by
  have h := C6_top_level
    [Statement.Function ("f") none none [Statement.Return none]]
    [] [] (Statement.Let none ("y") (Expr.Boolean true)) freshCompiler
  exact ⟨h.2.1 freshCompiler rfl rfl,
         h.2.2 (by
          intro t ht
          rcases List.mem_singleton.mp ht with rfl
          rfl)⟩

/-- C7: both type-translation points (the `BasicTypeEnum` match used
for parameters and `build_alloca`, and the `AnyTypeEnum` match used
for return types) fail fatally for any integer or float width other
than 32/64, and translate widths 32/64 to the matching 32- or 64-bit
primitive. -/
theorem C7_width_translation (w : Int) :
    ((w ≠ 32 ∧ w ≠ 64) →
      (llvmBasicType (Ty.Integer w) = .error FnError.unimplementedIntSize ∧
       llvmBasicType (Ty.Float w) = .error FnError.unimplementedFloatSize ∧
       llvmAnyType (Ty.Integer w) = .error FnError.unimplementedIntSize ∧
       llvmAnyType (Ty.Float w) = .error FnError.unimplementedFloatSize)) ∧
    llvmBasicType (Ty.Integer 32) = .ok BasicTy.i32 ∧
    llvmBasicType (Ty.Integer 64) = .ok BasicTy.i64 ∧
    llvmBasicType (Ty.Float 32) = .ok BasicTy.f32 ∧
    llvmBasicType (Ty.Float 64) = .ok BasicTy.f64 ∧
    llvmAnyType (Ty.Integer 32) = .ok AnyTy.i32 ∧
    llvmAnyType (Ty.Integer 64) = .ok AnyTy.i64 ∧
    llvmAnyType (Ty.Float 32) = .ok AnyTy.f32 ∧
    llvmAnyType (Ty.Float 64) = .ok AnyTy.f64 := by
  refine ⟨?_, rfl, rfl, rfl, rfl, rfl, rfl, rfl, rfl⟩
  rintro ⟨h32, h64⟩
  simp [llvmBasicType, llvmAnyType, h32, h64]

/-- C7 witness: width 7 is rejected at both translation points, width
32 succeeds. -/
theorem C7_width_translation_witness :
    llvmBasicType (Ty.Integer 7) = .error FnError.unimplementedIntSize ∧
    llvmAnyType (Ty.Float 7) = .error FnError.unimplementedFloatSize ∧
    llvmBasicType (Ty.Integer 32) = .ok BasicTy.i32 :=
  ⟨((C7_width_translation 7).1 (by decide)).1,
   ((C7_width_translation 7).1 (by decide)).2.2.2,
   (C7_width_translation 32).2.1⟩

/-- C8: statements after a `Return` are dead: lowering a statement
sequence beginning with a `Return` emits exactly what the `Return`
alone emits, and the trailing statements raise no error. -/
theorem C8_dead_after_return (funcs : List String) (s : StmtState)
    (e : Option Expr) (rest : List Statement) :
    gen_stmts funcs s (Statement.Return e :: rest) =
      gen_stmts funcs s [Statement.Return e] := by
  unfold gen_stmts
  cases hr : gen_stmt funcs s (Statement.Return e) with
  | error err => simp [Bind.bind, Except.bind]
  | ok s1 =>
      simp only [Bind.bind, Except.bind]
      rw [gen_stmts_of_terminated funcs s1
        (gen_stmt_return_terminated funcs s e s1 hr) rest]
      rfl

/-- C9: lowering is deterministic: running the driver twice from a
freshly constructed compiler (as `main` builds it) yields equal IR,
and in particular equal structure (block counts and instruction
streams). -/
theorem C9_deterministic (prog : List Statement) (c1 c2 : Compiler)
    (h1 : c1 = freshCompiler) (h2 : c2 = freshCompiler) :
    lowerProgramFrom c1 prog = lowerProgramFrom c2 prog ∧
    (lowerProgramFrom c1 prog).map moduleShape =
      (lowerProgramFrom c2 prog).map moduleShape := by
  subst h1
  subst h2
  exact ⟨rfl, rfl⟩

/-- C9 witness: the two runs agree on a concrete program. -/
theorem C9_deterministic_witness :
    lowerProgramFrom freshCompiler
        [Statement.Function ("main") none none [Statement.Return none]] =
      lowerProgramFrom freshCompiler
        [Statement.Function ("main") none none [Statement.Return none]] ∧
    (lowerProgramFrom freshCompiler
        [Statement.Function ("main") none none [Statement.Return none]]).map moduleShape =
      (lowerProgramFrom freshCompiler
        [Statement.Function ("main") none none [Statement.Return none]]).map moduleShape :=
  C9_deterministic [Statement.Function ("main") none none [Statement.Return none]]
    freshCompiler freshCompiler rfl rfl

/-- C10: an absent parameter list lowers exactly like a present-but-
empty one, and the prologue of a parameterless function adds no stack
slots and no storage-table bindings: the generated function has an
empty parameter list, the table and slot counter are untouched, and
only the `entry` block marker has been emitted. -/
theorem C10_no_params (c : Compiler) (fname : String) (ret : Option Ty)
    (body : List Statement) :
    lowerFunction c fname none ret body =
      lowerFunction c fname (some []) ret body ∧
    ∀ fnty funcs' s0,
      functionPrologue c fname none ret = .ok (fnty, funcs', s0) →
      fnty.params = [] ∧ s0.ptrs = c.ptrs ∧ s0.nextSlot = c.nextSlot ∧
      s0.code = [Instr.blockStart ("entry")] := by
  constructor
  · rfl
  · intro fnty funcs' s0 h
    unfold functionPrologue lowerParamTypes materializeParams at h
    cases ret with
    | none =>
        simp only [Bind.bind, Except.bind] at h
        cases h
        exact ⟨mkFunctionType_params_nil _, rfl, rfl, rfl⟩
    | some r =>
        simp only [Bind.bind, Except.bind] at h
        cases hr : llvmAnyType r with
        | error e => rw [hr] at h; cases h
        | ok a =>
            rw [hr] at h
            simp only at h
            cases h
            exact ⟨mkFunctionType_params_nil _, rfl, rfl, rfl⟩

/-- C10 witness: concrete instantiation of both conjuncts. -/
theorem C10_no_params_witness :
    lowerFunction freshCompiler ("f") none none [Statement.Return none] =
      lowerFunction freshCompiler ("f") (some []) none [Statement.Return none] ∧
    ({ params := [], ret := AnyTy.void } : FnType).params = [] ∧
    ({ ptrs := [], nextSlot := 0, code := [Instr.blockStart ("entry")],
       terminated := false, nextBlock := 0 } : StmtState).ptrs = freshCompiler.ptrs ∧
    ({ ptrs := [], nextSlot := 0, code := [Instr.blockStart ("entry")],
       terminated := false, nextBlock := 0 } : StmtState).nextSlot = freshCompiler.nextSlot ∧
    ({ ptrs := [], nextSlot := 0, code := [Instr.blockStart ("entry")],
       terminated := false, nextBlock := 0 } : StmtState).code = [Instr.blockStart ("entry")] := by
  have h := C10_no_params freshCompiler ("f") none [Statement.Return none]
  exact ⟨h.1, h.2 { params := [], ret := AnyTy.void } (builtinFuncs ++ ["f"])
    { ptrs := [], nextSlot := 0, code := [Instr.blockStart ("entry")],
      terminated := false, nextBlock := 0 } rfl⟩

end Azula
